import Mathlib

/-!
# Host interface library, Nios II driver: interrupt registration and gating

A shallow embedding of `hardware/drivers/hostinterface/src/hostiflibint_nios.c`.

The file has two functions, `hostif_sysIrqRegHandler` and `hostif_sysIrqEnable`.
Both are thin wrappers around the platform interrupt-controller driver
(`alt_ic_isr_register`, `alt_ic_irq_enable`, `alt_ic_irq_disable` of
`<sys/alt_irq.h>`).  The driver is outside the file, so the embedding takes it
as a parameter: a record of three state-passing primitives over an arbitrary
controller state.  Every property of the wrappers themselves is proved for an
arbitrary such record.
-/

namespace Hostif

/-! ## Data model -/

/-- Pointers (`void*`, and the function pointer type `tHostifIrqCb`) are machine
addresses. -/
abbrev Ptr := Nat

/-- The C constant `NULL`. -/
def NULL : Ptr := 0

/-- Modelled from the spec: the enumeration `tHostifReturn` is declared in
`hostiflib.h`, which is not among the sources.  The two enumerators the file
returns keep their names; `other` stands for any further enumerator of the
header, so that "no other code is returned" is a statement about the functions
and not about the type. -/
inductive tHostifReturn where
  | kHostifSuccessful
  | kHostifNoResource
  | other (code : Nat)
deriving DecidableEq

/-- The build-time constants `HOSTIF_IRQ_IC_ID` and `HOSTIF_IRQ` (macros of the
target header, not among the sources): the controller id and the line id of the
single interrupt source of the host interface IP core. -/
structure HostifTarget where
  HOSTIF_IRQ_IC_ID : Nat
  HOSTIF_IRQ : Nat
deriving DecidableEq

/-- The platform interrupt-controller driver the file calls.  Each primitive
takes the controller state and returns the C `int` status together with the
state it leaves behind.  Only the comparison of the status with `0` matters to
the callers, so the status is an `Int`. -/
structure IrqController (σ : Type) where
  alt_ic_isr_register : Nat → Nat → Ptr → Ptr → Ptr → σ → Int × σ
  alt_ic_irq_enable : Nat → Nat → σ → Int × σ
  alt_ic_irq_disable : Nat → Nat → σ → Int × σ

/-! ## The two functions of the file -/

/-- `hostif_sysIrqRegHandler` (lines 116-126): one call of
`alt_ic_isr_register` for the fixed source with the caller's callback and
argument and `NULL` flags; status `0` becomes `kHostifSuccessful`, every other
status `kHostifNoResource`. -/
def hostif_sysIrqRegHandler {σ : Type} (ic : IrqController σ) (t : HostifTarget)
    (pfnIrqCb_p : Ptr) (pArg_p : Ptr) (s : σ) : tHostifReturn × σ :=
  let ret := ic.alt_ic_isr_register t.HOSTIF_IRQ_IC_ID t.HOSTIF_IRQ pfnIrqCb_p pArg_p NULL s
  if ret.1 = 0 then
    (tHostifReturn.kHostifSuccessful, ret.2)
  else
    (tHostifReturn.kHostifNoResource, ret.2)

/-- `hostif_sysIrqEnable` (lines 143-160): `alt_ic_irq_enable` when the flag is
set and `alt_ic_irq_disable` otherwise, for the fixed source; status `0`
becomes `kHostifSuccessful`, every other status `kHostifNoResource`.  The C
type `BOOL` is tested by `if (fEnable_p)`; the flag is its truth value. -/
def hostif_sysIrqEnable {σ : Type} (ic : IrqController σ) (t : HostifTarget)
    (fEnable_p : Bool) (s : σ) : tHostifReturn × σ :=
  let ret :=
    if fEnable_p then
      ic.alt_ic_irq_enable t.HOSTIF_IRQ_IC_ID t.HOSTIF_IRQ s
    else
      ic.alt_ic_irq_disable t.HOSTIF_IRQ_IC_ID t.HOSTIF_IRQ s
  if ret.1 = 0 then
    (tHostifReturn.kHostifSuccessful, ret.2)
  else
    (tHostifReturn.kHostifNoResource, ret.2)

/-! ## Observing the calls a wrapper issues -/

/-- One call of a controller primitive, with its arguments. -/
inductive IcCall where
  | isr_register (ic_id irq : Nat) (isr isr_context flags : Ptr)
  | irq_enable (ic_id irq : Nat)
  | irq_disable (ic_id irq : Nat)
deriving DecidableEq

/-- The controller `ic` with a call log next to its state: each primitive
behaves as in `ic` and appends the call it received to the log. -/
def traced {σ : Type} (ic : IrqController σ) : IrqController (σ × List IcCall) where
  alt_ic_isr_register := fun ic_id irq isr ctx flags s =>
    let r := ic.alt_ic_isr_register ic_id irq isr ctx flags s.1
    (r.1, (r.2, s.2 ++ [IcCall.isr_register ic_id irq isr ctx flags]))
  alt_ic_irq_enable := fun ic_id irq s =>
    let r := ic.alt_ic_irq_enable ic_id irq s.1
    (r.1, (r.2, s.2 ++ [IcCall.irq_enable ic_id irq]))
  alt_ic_irq_disable := fun ic_id irq s =>
    let r := ic.alt_ic_irq_disable ic_id irq s.1
    (r.1, (r.2, s.2 ++ [IcCall.irq_disable ic_id irq]))

/-- The status the registration primitive of `ic` answers in state `s` to the
call `hostif_sysIrqRegHandler` makes. -/
def regStatus {σ : Type} (ic : IrqController σ) (t : HostifTarget)
    (pfnIrqCb_p pArg_p : Ptr) (s : σ) : Int :=
  (ic.alt_ic_isr_register t.HOSTIF_IRQ_IC_ID t.HOSTIF_IRQ pfnIrqCb_p pArg_p NULL s).1

/-- The status the primitive selected by the flag answers in state `s`. -/
def gateStatus {σ : Type} (ic : IrqController σ) (t : HostifTarget)
    (fEnable_p : Bool) (s : σ) : Int :=
  if fEnable_p then
    (ic.alt_ic_irq_enable t.HOSTIF_IRQ_IC_ID t.HOSTIF_IRQ s).1
  else
    (ic.alt_ic_irq_disable t.HOSTIF_IRQ_IC_ID t.HOSTIF_IRQ s).1

/-- The call `hostif_sysIrqEnable` is expected to issue for a flag. -/
def gateCall (t : HostifTarget) (fEnable_p : Bool) : IcCall :=
  if fEnable_p then
    IcCall.irq_enable t.HOSTIF_IRQ_IC_ID t.HOSTIF_IRQ
  else
    IcCall.irq_disable t.HOSTIF_IRQ_IC_ID t.HOSTIF_IRQ

/-- The call `hostif_sysIrqRegHandler` is expected to issue. -/
def regCall (t : HostifTarget) (pfnIrqCb_p pArg_p : Ptr) : IcCall :=
  IcCall.isr_register t.HOSTIF_IRQ_IC_ID t.HOSTIF_IRQ pfnIrqCb_p pArg_p NULL

/-! ## A controller with a handler table and mask bits -/

/-- Modelled from the spec: the state of the platform interrupt controller,
which is not among the sources.  Per the spec it is "the controller's own
handler table and mask bits": for each source (controller id, line id) the
installed binding (callback, context) if any, and whether the line is
unmasked. -/
structure IcState where
  handler : Nat × Nat → Option (Ptr × Ptr)
  unmasked : Nat × Nat → Bool

/-- Modelled from the spec: the initial controller state.  "Initial state is
Disabled"; no binding is installed. -/
def IcState.init : IcState :=
  ⟨fun _ => none, fun _ => false⟩

/-- Modelled from the spec: the effect of an accepted primitive call on the
controller state.  Registration "installs (callback, context) as the handler
for InterruptSource, replacing any previous binding", a null callback being the
"degenerate case" that clears the binding, and "does not itself enable
delivery"; enable unmasks and disable masks the source "without touching the
CallbackBinding". -/
def IcState.apply (s : IcState) : IcCall → IcState
  | IcCall.isr_register ic_id irq isr ctx _ =>
    ⟨Function.update s.handler (ic_id, irq) (if isr = NULL then none else some (isr, ctx)),
      s.unmasked⟩
  | IcCall.irq_enable ic_id irq =>
    ⟨s.handler, Function.update s.unmasked (ic_id, irq) true⟩
  | IcCall.irq_disable ic_id irq =>
    ⟨s.handler, Function.update s.unmasked (ic_id, irq) false⟩

/-- Modelled from the spec: one primitive call on the controller.  The
platform decides the status through `policy` (invalid source, table
exhaustion, busy, ...); a call answered with `0` takes effect, a rejected call
leaves the state as it was. -/
def IcState.call (policy : IcCall → IcState → Int) (c : IcCall) (s : IcState) :
    Int × IcState :=
  if policy c s = 0 then (0, s.apply c) else (policy c s, s)

/-- Modelled from the spec: the platform interrupt controller as a record of
the three primitives the file calls, for a given acceptance policy. -/
def refController (policy : IcCall → IcState → Int) : IrqController IcState where
  alt_ic_isr_register := fun ic_id irq isr ctx flags s =>
    IcState.call policy (IcCall.isr_register ic_id irq isr ctx flags) s
  alt_ic_irq_enable := fun ic_id irq s =>
    IcState.call policy (IcCall.irq_enable ic_id irq) s
  alt_ic_irq_disable := fun ic_id irq s =>
    IcState.call policy (IcCall.irq_disable ic_id irq) s

/-- The policy of a controller that accepts every call. -/
def acceptAll : IcCall → IcState → Int :=
  fun _ _ => 0

/-- The policy of a controller that is not idempotent: it rejects, with status
`-1`, an enable of a line that is already unmasked and a disable of a line that
is already masked, and accepts everything else. -/
def rejectRepeated : IcCall → IcState → Int
  | IcCall.isr_register _ _ _ _ _, _ => 0
  | IcCall.irq_enable ic_id irq, s => if s.unmasked (ic_id, irq) then -1 else 0
  | IcCall.irq_disable ic_id irq, s => if s.unmasked (ic_id, irq) then 0 else -1

/-- GateState of the spec: whether the fixed source is unmasked. -/
def GateState (t : HostifTarget) (s : IcState) : Bool :=
  s.unmasked (t.HOSTIF_IRQ_IC_ID, t.HOSTIF_IRQ)

/-- CallbackBinding of the spec: the binding installed for the fixed source. -/
def CallbackBinding (t : HostifTarget) (s : IcState) : Option (Ptr × Ptr) :=
  s.handler (t.HOSTIF_IRQ_IC_ID, t.HOSTIF_IRQ)

/-- Modelled from the spec: one firing of the fixed source.  It returns the
callback invocations (callback, context) the firing causes: the bound callback
with its context when the source is unmasked and a binding exists, none
otherwise.  The callback may not call back into the library, so a firing leaves
the controller state alone. -/
def fire (t : HostifTarget) (s : IcState) : List (Ptr × Ptr) :=
  if GateState t s then
    match CallbackBinding t s with
    | some b => [b]
    | none => []
  else
    []

/-- Whether a call is a call of the registration primitive. -/
def IcCall.isRegistration : IcCall → Bool
  | IcCall.isr_register _ _ _ _ _ => true
  | IcCall.irq_enable _ _ => false
  | IcCall.irq_disable _ _ => false

/-! ## Sequences of operations and firings -/

/-- One step of a caller or of the hardware: a registration, a gate request,
or one firing of the fixed source. -/
inductive Step where
  | register (cb ctx : Ptr)
  | setEnabled (flag : Bool)
  | fire
deriving DecidableEq

/-- What a step lets an observer see: the code an operation returned, or the
callback invocations a firing caused. -/
inductive Event where
  | registered (cb ctx : Ptr) (r : tHostifReturn)
  | gated (flag : Bool) (r : tHostifReturn)
  | fired (invoked : List (Ptr × Ptr))
deriving DecidableEq

/-- One step on the controller with acceptance policy `policy`: the two
operations are the functions of the file, run on that controller. -/
def step (policy : IcCall → IcState → Int) (t : HostifTarget) :
    Step → IcState → Event × IcState
  | Step.register cb ctx, s =>
    let r := hostif_sysIrqRegHandler (refController policy) t cb ctx s
    (Event.registered cb ctx r.1, r.2)
  | Step.setEnabled flag, s =>
    let r := hostif_sysIrqEnable (refController policy) t flag s
    (Event.gated flag r.1, r.2)
  | Step.fire, s => (Event.fired (fire t s), s)

/-- A sequence of steps from a starting state: the events in order and the
final state. -/
def run (policy : IcCall → IcState → Int) (t : HostifTarget) :
    List Step → IcState → List Event × IcState
  | [], s => ([], s)
  | st :: rest, s =>
    let r := step policy t st s
    let rr := run policy t rest r.2
    (r.1 :: rr.1, rr.2)

/-- The monitor of "no invocation while disabled".  `d` holds when a
`setEnabled(false)` has returned `kHostifSuccessful` and no `setEnabled(true)`
has returned `kHostifSuccessful` since.  The result is `true` when no firing
that happens while `d` holds invokes anything. -/
def quietWhileDisabled : Bool → List Event → Bool
  | _, [] => true
  | d, Event.registered _ _ _ :: es => quietWhileDisabled d es
  | d, Event.gated flag r :: es =>
    quietWhileDisabled (if r = tHostifReturn.kHostifSuccessful then !flag else d) es
  | d, Event.fired invoked :: es => (!d || invoked.isEmpty) && quietWhileDisabled d es

end Hostif

/-! ## Concrete inputs used in the examples -/

namespace Hostif

/-- A concrete target: controller `0`, line `2`. -/
def exampleTarget : HostifTarget :=
  ⟨0, 2⟩

/-- The controller state in which the line of `exampleTarget` is unmasked and
nothing else has happened. -/
def exampleEnabled : IcState :=
  IcState.init.apply (IcCall.irq_enable 0 2)

/-- A policy that rejects, with status `5`, every call made while the line of
`exampleTarget` is unmasked, and accepts every call made while it is masked. -/
def rejectWhileEnabled : IcCall → IcState → Int :=
  fun _ s => if s.unmasked (0, 2) then 5 else 0

/-- A policy of a controller whose handler table entry cannot be overwritten:
it rejects, with status `-1`, a registration for a source that already has a
binding, and accepts every other call. -/
def rejectRebind : IcCall → IcState → Int
  | IcCall.isr_register ic_id irq _ _ _, s => if (s.handler (ic_id, irq)).isSome then -1 else 0
  | IcCall.irq_enable _ _, _ => 0
  | IcCall.irq_disable _ _, _ => 0

/-- The controller state in which callback `7` with context `1` is bound to the
line of `exampleTarget` and the line is still masked. -/
def exampleBound : IcState :=
  IcState.init.apply (IcCall.isr_register 0 2 7 1 NULL)

end Hostif

/-! ## The wrappers on an arbitrary controller -/

namespace Hostif

open tHostifReturn

/-- The code `hostif_sysIrqRegHandler` returns is the translation of the status
of its registration call. -/
theorem regHandler_code {σ : Type} (ic : IrqController σ) (t : HostifTarget)
    (cb ctx : Ptr) (s : σ) :
    (hostif_sysIrqRegHandler ic t cb ctx s).1 =
      if regStatus ic t cb ctx s = 0 then kHostifSuccessful else kHostifNoResource := by
  unfold hostif_sysIrqRegHandler regStatus
  by_cases h : (ic.alt_ic_isr_register t.HOSTIF_IRQ_IC_ID t.HOSTIF_IRQ cb ctx NULL s).1 = 0 <;>
    simp [h]

/-- The state `hostif_sysIrqRegHandler` leaves is the state its registration
call leaves: the wrapper changes nothing by itself. -/
theorem regHandler_state {σ : Type} (ic : IrqController σ) (t : HostifTarget)
    (cb ctx : Ptr) (s : σ) :
    (hostif_sysIrqRegHandler ic t cb ctx s).2 =
      (ic.alt_ic_isr_register t.HOSTIF_IRQ_IC_ID t.HOSTIF_IRQ cb ctx NULL s).2 := by
  unfold hostif_sysIrqRegHandler
  by_cases h : (ic.alt_ic_isr_register t.HOSTIF_IRQ_IC_ID t.HOSTIF_IRQ cb ctx NULL s).1 = 0 <;>
    simp [h]

/-- The code `hostif_sysIrqEnable` returns is the translation of the status of
the primitive the flag selects. -/
theorem irqEnable_code {σ : Type} (ic : IrqController σ) (t : HostifTarget)
    (flag : Bool) (s : σ) :
    (hostif_sysIrqEnable ic t flag s).1 =
      if gateStatus ic t flag s = 0 then kHostifSuccessful else kHostifNoResource := by
  unfold hostif_sysIrqEnable gateStatus
  cases flag
  · by_cases h : (ic.alt_ic_irq_disable t.HOSTIF_IRQ_IC_ID t.HOSTIF_IRQ s).1 = 0 <;> simp [h]
  · by_cases h : (ic.alt_ic_irq_enable t.HOSTIF_IRQ_IC_ID t.HOSTIF_IRQ s).1 = 0 <;> simp [h]

/-- The state `hostif_sysIrqEnable` leaves is the state the selected primitive
leaves. -/
theorem irqEnable_state {σ : Type} (ic : IrqController σ) (t : HostifTarget)
    (flag : Bool) (s : σ) :
    (hostif_sysIrqEnable ic t flag s).2 =
      if flag then (ic.alt_ic_irq_enable t.HOSTIF_IRQ_IC_ID t.HOSTIF_IRQ s).2
      else (ic.alt_ic_irq_disable t.HOSTIF_IRQ_IC_ID t.HOSTIF_IRQ s).2 := by
  unfold hostif_sysIrqEnable
  cases flag
  · by_cases h : (ic.alt_ic_irq_disable t.HOSTIF_IRQ_IC_ID t.HOSTIF_IRQ s).1 = 0 <;> simp [h]
  · by_cases h : (ic.alt_ic_irq_enable t.HOSTIF_IRQ_IC_ID t.HOSTIF_IRQ s).1 = 0 <;> simp [h]

/-- Logging the calls does not change the status the registration primitive
answers. -/
theorem regStatus_traced {σ : Type} (ic : IrqController σ) (t : HostifTarget)
    (cb ctx : Ptr) (s : σ) (log : List IcCall) :
    regStatus (traced ic) t cb ctx (s, log) = regStatus ic t cb ctx s := by
  simp [regStatus, traced]

/-- Logging the calls does not change the status the gate primitive answers. -/
theorem gateStatus_traced {σ : Type} (ic : IrqController σ) (t : HostifTarget)
    (flag : Bool) (s : σ) (log : List IcCall) :
    gateStatus (traced ic) t flag (s, log) = gateStatus ic t flag s := by
  cases flag <;> simp [gateStatus, traced]

/-- On the logging controller, `hostif_sysIrqRegHandler` returns what it
returns on the plain one, and the log grows by the one registration call. -/
theorem regHandler_traced {σ : Type} (ic : IrqController σ) (t : HostifTarget)
    (cb ctx : Ptr) (s : σ) (log : List IcCall) :
    hostif_sysIrqRegHandler (traced ic) t cb ctx (s, log) =
      ((hostif_sysIrqRegHandler ic t cb ctx s).1,
        ((hostif_sysIrqRegHandler ic t cb ctx s).2, log ++ [regCall t cb ctx])) := by
  unfold hostif_sysIrqRegHandler
  by_cases h : (ic.alt_ic_isr_register t.HOSTIF_IRQ_IC_ID t.HOSTIF_IRQ cb ctx NULL s).1 = 0 <;>
    simp [h, traced, regCall]

/-- On the logging controller, `hostif_sysIrqEnable` returns what it returns on
the plain one, and the log grows by the one call the flag selects. -/
theorem irqEnable_traced {σ : Type} (ic : IrqController σ) (t : HostifTarget)
    (flag : Bool) (s : σ) (log : List IcCall) :
    hostif_sysIrqEnable (traced ic) t flag (s, log) =
      ((hostif_sysIrqEnable ic t flag s).1,
        ((hostif_sysIrqEnable ic t flag s).2, log ++ [gateCall t flag])) := by
  unfold hostif_sysIrqEnable
  cases flag
  · by_cases h : (ic.alt_ic_irq_disable t.HOSTIF_IRQ_IC_ID t.HOSTIF_IRQ s).1 = 0 <;>
      simp [h, traced, gateCall]
  · by_cases h : (ic.alt_ic_irq_enable t.HOSTIF_IRQ_IC_ID t.HOSTIF_IRQ s).1 = 0 <;>
      simp [h, traced, gateCall]

end Hostif

/-! ## Status translation and the calls issued (claims C1, C2, C3, C9) -/

namespace Hostif

open tHostifReturn

/-- C1: for every callback, every context pointer (null included) and every
state of every controller, `hostif_sysIrqRegHandler` returns
`kHostifSuccessful` exactly when the registration primitive answers status `0`,
returns `kHostifNoResource` exactly when it answers a nonzero status (of either
sign), and returns no other code. -/
theorem C1_regHandler_status_translation {σ : Type} (ic : IrqController σ)
    (t : HostifTarget) (pfnIrqCb_p pArg_p : Ptr) (s : σ) :
    ((hostif_sysIrqRegHandler ic t pfnIrqCb_p pArg_p s).1 = kHostifSuccessful ↔
        (ic.alt_ic_isr_register t.HOSTIF_IRQ_IC_ID t.HOSTIF_IRQ pfnIrqCb_p pArg_p NULL s).1 = 0) ∧
      ((hostif_sysIrqRegHandler ic t pfnIrqCb_p pArg_p s).1 = kHostifNoResource ↔
        (ic.alt_ic_isr_register t.HOSTIF_IRQ_IC_ID t.HOSTIF_IRQ pfnIrqCb_p pArg_p NULL s).1 ≠ 0) ∧
      ((hostif_sysIrqRegHandler ic t pfnIrqCb_p pArg_p s).1 = kHostifSuccessful ∨
        (hostif_sysIrqRegHandler ic t pfnIrqCb_p pArg_p s).1 = kHostifNoResource) := by
  have hc := regHandler_code ic t pfnIrqCb_p pArg_p s
  unfold regStatus at hc
  by_cases h :
      (ic.alt_ic_isr_register t.HOSTIF_IRQ_IC_ID t.HOSTIF_IRQ pfnIrqCb_p pArg_p NULL s).1 = 0
  · rw [if_pos h] at hc
    simp [hc, h]
  · rw [if_neg h] at hc
    simp [hc, h]

/-- C2: for every flag and every state of every controller,
`hostif_sysIrqEnable` returns `kHostifSuccessful` exactly when the primitive it
called (`alt_ic_irq_enable` for a set flag, `alt_ic_irq_disable` for a clear
one) answers status `0`, returns `kHostifNoResource` exactly when that
primitive answers a nonzero status, and returns no other code. -/
theorem C2_irqEnable_status_translation {σ : Type} (ic : IrqController σ)
    (t : HostifTarget) (fEnable_p : Bool) (s : σ) :
    ((hostif_sysIrqEnable ic t true s).1 = kHostifSuccessful ↔
        (ic.alt_ic_irq_enable t.HOSTIF_IRQ_IC_ID t.HOSTIF_IRQ s).1 = 0) ∧
      ((hostif_sysIrqEnable ic t true s).1 = kHostifNoResource ↔
        (ic.alt_ic_irq_enable t.HOSTIF_IRQ_IC_ID t.HOSTIF_IRQ s).1 ≠ 0) ∧
      ((hostif_sysIrqEnable ic t false s).1 = kHostifSuccessful ↔
        (ic.alt_ic_irq_disable t.HOSTIF_IRQ_IC_ID t.HOSTIF_IRQ s).1 = 0) ∧
      ((hostif_sysIrqEnable ic t false s).1 = kHostifNoResource ↔
        (ic.alt_ic_irq_disable t.HOSTIF_IRQ_IC_ID t.HOSTIF_IRQ s).1 ≠ 0) ∧
      ((hostif_sysIrqEnable ic t fEnable_p s).1 = kHostifSuccessful ∨
        (hostif_sysIrqEnable ic t fEnable_p s).1 = kHostifNoResource) := by
  have ht := irqEnable_code ic t true s
  have hf := irqEnable_code ic t false s
  have hb := irqEnable_code ic t fEnable_p s
  simp only [gateStatus, if_true, Bool.false_eq_true, if_false] at ht hf
  refine ⟨?_, ?_, ?_, ?_, ?_⟩
  · by_cases h : (ic.alt_ic_irq_enable t.HOSTIF_IRQ_IC_ID t.HOSTIF_IRQ s).1 = 0 <;>
      simp [ht, h]
  · by_cases h : (ic.alt_ic_irq_enable t.HOSTIF_IRQ_IC_ID t.HOSTIF_IRQ s).1 = 0 <;>
      simp [ht, h]
  · by_cases h : (ic.alt_ic_irq_disable t.HOSTIF_IRQ_IC_ID t.HOSTIF_IRQ s).1 = 0 <;>
      simp [hf, h]
  · by_cases h : (ic.alt_ic_irq_disable t.HOSTIF_IRQ_IC_ID t.HOSTIF_IRQ s).1 = 0 <;>
      simp [hf, h]
  · by_cases h : gateStatus ic t fEnable_p s = 0 <;> simp [hb, h]

/-- C3: for every flag, on every controller, the calls `hostif_sysIrqEnable`
issues are exactly one call for the fixed source
(`HOSTIF_IRQ_IC_ID`, `HOSTIF_IRQ`): `alt_ic_irq_enable` when the flag is set,
`alt_ic_irq_disable` when it is clear; the choice depends on the flag alone. -/
theorem C3_irqEnable_selects_primitive {σ : Type} (ic : IrqController σ)
    (t : HostifTarget) (s : σ) (log : List IcCall) :
    (hostif_sysIrqEnable (traced ic) t true (s, log)).2.2 =
        log ++ [IcCall.irq_enable t.HOSTIF_IRQ_IC_ID t.HOSTIF_IRQ] ∧
      (hostif_sysIrqEnable (traced ic) t false (s, log)).2.2 =
        log ++ [IcCall.irq_disable t.HOSTIF_IRQ_IC_ID t.HOSTIF_IRQ] := by
  constructor
  · rw [irqEnable_traced]; simp [gateCall]
  · rw [irqEnable_traced]; simp [gateCall]

/-- C9: on every controller, for every input, one call of
`hostif_sysIrqRegHandler` and one call of `hostif_sysIrqEnable` each issue
exactly one primitive call, whatever status that call answers; the code the
caller receives is the translation of the status of that single call, so a
nonzero status surfaces at once as `kHostifNoResource`. -/
theorem C9_single_call_no_retry {σ : Type} (ic : IrqController σ) (t : HostifTarget)
    (pfnIrqCb_p pArg_p : Ptr) (fEnable_p : Bool) (s : σ) (log : List IcCall) :
    ((hostif_sysIrqRegHandler (traced ic) t pfnIrqCb_p pArg_p (s, log)).2.2.length =
        log.length + 1 ∧
      (hostif_sysIrqRegHandler (traced ic) t pfnIrqCb_p pArg_p (s, log)).1 =
        (if regStatus ic t pfnIrqCb_p pArg_p s = 0 then kHostifSuccessful
          else kHostifNoResource)) ∧
    ((hostif_sysIrqEnable (traced ic) t fEnable_p (s, log)).2.2.length = log.length + 1 ∧
      (hostif_sysIrqEnable (traced ic) t fEnable_p (s, log)).1 =
        (if gateStatus ic t fEnable_p s = 0 then kHostifSuccessful
          else kHostifNoResource)) := by
  refine ⟨⟨?_, ?_⟩, ⟨?_, ?_⟩⟩
  · rw [regHandler_traced]; simp
  · rw [regHandler_traced]; exact regHandler_code ic t pfnIrqCb_p pArg_p s
  · rw [irqEnable_traced]; simp
  · rw [irqEnable_traced]; exact irqEnable_code ic t fEnable_p s

end Hostif

/-! ## The wrappers on the controller with handler table and mask bits -/

namespace Hostif

open tHostifReturn

/-- On the modelled controller `hostif_sysIrqRegHandler` applies the
registration when the policy accepts it and leaves the state otherwise. -/
theorem regHandler_ref (policy : IcCall → IcState → Int) (t : HostifTarget)
    (cb ctx : Ptr) (s : IcState) :
    hostif_sysIrqRegHandler (refController policy) t cb ctx s =
      if policy (regCall t cb ctx) s = 0 then (kHostifSuccessful, s.apply (regCall t cb ctx))
      else (kHostifNoResource, s) := by
  unfold hostif_sysIrqRegHandler
  by_cases h : policy (regCall t cb ctx) s = 0
  · have h2 : policy (IcCall.isr_register t.HOSTIF_IRQ_IC_ID t.HOSTIF_IRQ cb ctx NULL) s = 0 := h
    simp [refController, IcState.call, regCall, h2]
  · have h2 : ¬ policy (IcCall.isr_register t.HOSTIF_IRQ_IC_ID t.HOSTIF_IRQ cb ctx NULL) s = 0 := h
    simp [refController, IcState.call, regCall, h2]

/-- On the modelled controller `hostif_sysIrqEnable` applies the selected call
when the policy accepts it and leaves the state otherwise. -/
theorem irqEnable_ref (policy : IcCall → IcState → Int) (t : HostifTarget)
    (flag : Bool) (s : IcState) :
    hostif_sysIrqEnable (refController policy) t flag s =
      if policy (gateCall t flag) s = 0 then (kHostifSuccessful, s.apply (gateCall t flag))
      else (kHostifNoResource, s) := by
  unfold hostif_sysIrqEnable
  cases flag
  · by_cases h : policy (IcCall.irq_disable t.HOSTIF_IRQ_IC_ID t.HOSTIF_IRQ) s = 0 <;>
      simp [refController, IcState.call, gateCall, h]
  · by_cases h : policy (IcCall.irq_enable t.HOSTIF_IRQ_IC_ID t.HOSTIF_IRQ) s = 0 <;>
      simp [refController, IcState.call, gateCall, h]

/-- An accepted registration leaves the mask bit of the fixed source alone. -/
theorem GateState_apply_regCall (t : HostifTarget) (cb ctx : Ptr) (s : IcState) :
    GateState t (s.apply (regCall t cb ctx)) = GateState t s := by
  simp [GateState, IcState.apply, regCall]

/-- An accepted registration installs the pair it was given, or clears the
binding for a null callback. -/
theorem CallbackBinding_apply_regCall (t : HostifTarget) (cb ctx : Ptr) (s : IcState) :
    CallbackBinding t (s.apply (regCall t cb ctx)) =
      if cb = NULL then none else some (cb, ctx) := by
  simp [CallbackBinding, IcState.apply, regCall]

/-- An accepted gate call sets the mask bit of the fixed source to the flag. -/
theorem GateState_apply_gateCall (t : HostifTarget) (flag : Bool) (s : IcState) :
    GateState t (s.apply (gateCall t flag)) = flag := by
  cases flag <;> simp [GateState, IcState.apply, gateCall]

/-- An accepted gate call leaves the handler table alone. -/
theorem CallbackBinding_apply_gateCall (t : HostifTarget) (flag : Bool) (s : IcState) :
    CallbackBinding t (s.apply (gateCall t flag)) = CallbackBinding t s := by
  cases flag <;> simp [CallbackBinding, IcState.apply, gateCall]

/-- Applying the same gate call a second time changes nothing. -/
theorem apply_gateCall_twice (t : HostifTarget) (flag : Bool) (s : IcState) :
    (s.apply (gateCall t flag)).apply (gateCall t flag) = s.apply (gateCall t flag) := by
  cases flag <;> simp [IcState.apply, gateCall]

/-- The monitor is not vacuous: it rejects a trace in which a firing invokes a
callback after a successful disable. -/
theorem quietWhileDisabled_detects :
    quietWhileDisabled false
      [Event.gated false kHostifSuccessful, Event.fired [(4096, 0)]] = false := by
  decide

end Hostif

/-! ## Sequences: no invocation while disabled -/

namespace Hostif

open tHostifReturn

/-- A firing of a masked source invokes nothing. -/
theorem fire_of_masked (t : HostifTarget) (s : IcState) (h : GateState t s = false) :
    fire t s = [] := by
  simp [fire, h]

/-- A firing of an unmasked source with a binding invokes that binding once. -/
theorem fire_of_bound (t : HostifTarget) (s : IcState) (b : Ptr × Ptr)
    (hg : GateState t s = true) (hb : CallbackBinding t s = some b) :
    fire t s = [b] := by
  simp [fire, hg, hb]

/-- Whatever a firing invokes is the binding installed for the fixed source. -/
theorem fire_subset_binding (t : HostifTarget) (s : IcState) (b : Ptr × Ptr)
    (h : b ∈ fire t s) : CallbackBinding t s = some b := by
  unfold fire at h
  by_cases hg : GateState t s = true
  · rw [if_pos hg] at h
    cases hb : CallbackBinding t s with
    | none => rw [hb] at h; simp at h
    | some c => rw [hb] at h; simp at h; rw [h]
  · rw [if_neg hg] at h
    simp at h

/-- The invariant behind the monitor: as long as the monitor flag `d` implies
that the fixed source is masked, every run satisfies the monitor. -/
theorem quiet_of_masked (policy : IcCall → IcState → Int) (t : HostifTarget) :
    ∀ (steps : List Step) (s : IcState) (d : Bool),
      (d = true → GateState t s = false) →
        quietWhileDisabled d (run policy t steps s).1 = true := by
  intro steps
  induction steps with
  | nil => intro s d _; simp [run, quietWhileDisabled]
  | cons st rest ih =>
    intro s d hinv
    cases st with
    | register cb ctx =>
      simp only [run, step, quietWhileDisabled]
      apply ih
      intro hd
      rw [regHandler_ref]
      by_cases hp : policy (regCall t cb ctx) s = 0
      · rw [if_pos hp]
        simpa [GateState_apply_regCall] using hinv hd
      · rw [if_neg hp]
        exact hinv hd
    | setEnabled flag =>
      simp only [run, step, quietWhileDisabled]
      apply ih
      rw [irqEnable_ref]
      by_cases hp : policy (gateCall t flag) s = 0
      · rw [if_pos hp]
        intro hd
        simp only [if_true] at hd
        simp only [GateState_apply_gateCall]
        cases flag
        · rfl
        · simp at hd
      · rw [if_neg hp]
        intro hd
        simp at hd
        exact hinv hd
    | fire =>
      simp only [run, step, quietWhileDisabled, Bool.and_eq_true]
      constructor
      · cases d
        · simp
        · simp [fire_of_masked t s (hinv rfl)]
      · exact ih s d hinv

end Hostif

/-! ## Forwarding, delivery and the gate (claims C4, C5, C10) -/

namespace Hostif

open tHostifReturn

/-- C4: for every callback and every context pointer (null included), on every
controller, `hostif_sysIrqRegHandler` passes exactly that callback and that
context pointer to `alt_ic_isr_register` for the fixed source; and on a
controller that accepts the two calls, registration of a (non-null) callback,
then `hostif_sysIrqEnable(TRUE)`, then one firing of the source invokes that
callback exactly once, with the original context pointer. -/
theorem C4_callback_forwarded {σ : Type} (ic : IrqController σ) (t : HostifTarget)
    (pfnIrqCb_p pArg_p : Ptr) (u : σ) (log : List IcCall)
    (policy : IcCall → IcState → Int) (s : IcState) :
    (hostif_sysIrqRegHandler (traced ic) t pfnIrqCb_p pArg_p (u, log)).2.2 =
        log ++ [IcCall.isr_register t.HOSTIF_IRQ_IC_ID t.HOSTIF_IRQ pfnIrqCb_p pArg_p NULL] ∧
      (pfnIrqCb_p ≠ NULL →
        policy (regCall t pfnIrqCb_p pArg_p) s = 0 →
        policy (gateCall t true) (s.apply (regCall t pfnIrqCb_p pArg_p)) = 0 →
        (run policy t [Step.register pfnIrqCb_p pArg_p, Step.setEnabled true, Step.fire] s).1 =
          [Event.registered pfnIrqCb_p pArg_p kHostifSuccessful,
            Event.gated true kHostifSuccessful,
            Event.fired [(pfnIrqCb_p, pArg_p)]]) := by
  constructor
  · rw [regHandler_traced]; simp [regCall]
  · intro hcb hreg hen
    have hf : fire t ((s.apply (regCall t pfnIrqCb_p pArg_p)).apply (gateCall t true)) =
        [(pfnIrqCb_p, pArg_p)] := by
      apply fire_of_bound
      · exact GateState_apply_gateCall t true _
      · rw [CallbackBinding_apply_gateCall, CallbackBinding_apply_regCall, if_neg hcb]
    simp [run, step, regHandler_ref, irqEnable_ref, hreg, hen, hf]

/-- The instance of C4 at callback `4096`, a null context pointer, the initial
state and a controller that accepts every call. -/
theorem C4_callback_forwarded_witness :
    (run acceptAll exampleTarget
        [Step.register 4096 NULL, Step.setEnabled true, Step.fire] IcState.init).1 =
      [Event.registered 4096 NULL kHostifSuccessful,
        Event.gated true kHostifSuccessful,
        Event.fired [(4096, NULL)]] :=
  (C4_callback_forwarded (refController acceptAll) exampleTarget 4096 NULL IcState.init []
    acceptAll IcState.init).2 (by decide) rfl rfl

/-- C5: in every sequence of register / setEnabled / fire steps, from every
starting state and for every acceptance policy of the controller, once a
`setEnabled(false)` has returned `kHostifSuccessful` no firing invokes a
callback until a later `setEnabled(true)` returns `kHostifSuccessful`; and the
scenario register(A, 0x1000), setEnabled(true), fire, setEnabled(false), fire
on an accepting controller invokes A with 0x1000 on the first firing and
nothing on the second. -/
theorem C5_quiet_after_disable (policy : IcCall → IcState → Int) (t : HostifTarget)
    (steps : List Step) (s : IcState) (A : Ptr) :
    quietWhileDisabled false (run policy t steps s).1 = true ∧
      (A ≠ NULL →
        (run acceptAll t
            [Step.register A 4096, Step.setEnabled true, Step.fire,
              Step.setEnabled false, Step.fire] s).1 =
          [Event.registered A 4096 kHostifSuccessful,
            Event.gated true kHostifSuccessful,
            Event.fired [(A, 4096)],
            Event.gated false kHostifSuccessful,
            Event.fired []]) := by
  constructor
  · exact quiet_of_masked policy t steps s false (by simp)
  · intro hA
    have h1 : fire t ((s.apply (regCall t A 4096)).apply (gateCall t true)) = [(A, 4096)] := by
      apply fire_of_bound
      · exact GateState_apply_gateCall t true _
      · rw [CallbackBinding_apply_gateCall, CallbackBinding_apply_regCall, if_neg hA]
    have h2 : fire t
        (((s.apply (regCall t A 4096)).apply (gateCall t true)).apply (gateCall t false)) =
        [] := by
      apply fire_of_masked
      exact GateState_apply_gateCall t false _
    simp [run, step, regHandler_ref, irqEnable_ref, acceptAll, h1, h2]

/-- The scenario of C5 at callback `7`, from the initial state. -/
theorem C5_quiet_after_disable_witness :
    (run acceptAll exampleTarget
        [Step.register 7 4096, Step.setEnabled true, Step.fire,
          Step.setEnabled false, Step.fire] IcState.init).1 =
      [Event.registered 7 4096 kHostifSuccessful,
        Event.gated true kHostifSuccessful,
        Event.fired [(7, 4096)],
        Event.gated false kHostifSuccessful,
        Event.fired []] :=
  (C5_quiet_after_disable acceptAll exampleTarget [] IcState.init 7).2 (by decide)

/-- C10: on every controller, `hostif_sysIrqRegHandler` issues only a call of
the registration primitive and `hostif_sysIrqEnable` issues only a call of the
enable or disable primitive; and on the controller with handler table and mask
bits, whatever its acceptance policy, registration leaves GateState as it was
and the gate leaves the CallbackBinding as it was. -/
theorem C10_registrar_gate_disjoint {σ : Type} (ic : IrqController σ) (t : HostifTarget)
    (pfnIrqCb_p pArg_p : Ptr) (fEnable_p : Bool) (u : σ) (log : List IcCall)
    (policy : IcCall → IcState → Int) (s : IcState) :
    ((hostif_sysIrqRegHandler (traced ic) t pfnIrqCb_p pArg_p (u, log)).2.2 =
        log ++ [regCall t pfnIrqCb_p pArg_p] ∧
      (regCall t pfnIrqCb_p pArg_p).isRegistration = true) ∧
    ((hostif_sysIrqEnable (traced ic) t fEnable_p (u, log)).2.2 =
        log ++ [gateCall t fEnable_p] ∧
      (gateCall t fEnable_p).isRegistration = false) ∧
    GateState t (hostif_sysIrqRegHandler (refController policy) t pfnIrqCb_p pArg_p s).2 =
      GateState t s ∧
    CallbackBinding t (hostif_sysIrqEnable (refController policy) t fEnable_p s).2 =
      CallbackBinding t s := by
  refine ⟨⟨?_, ?_⟩, ⟨?_, ?_⟩, ?_, ?_⟩
  · rw [regHandler_traced]
  · rfl
  · rw [irqEnable_traced]
  · cases fEnable_p <;> rfl
  · rw [regHandler_ref]
    by_cases hp : policy (regCall t pfnIrqCb_p pArg_p) s = 0
    · rw [if_pos hp]; exact GateState_apply_regCall t pfnIrqCb_p pArg_p s
    · rw [if_neg hp]
  · rw [irqEnable_ref]
    by_cases hp : policy (gateCall t fEnable_p) s = 0
    · rw [if_pos hp]; exact CallbackBinding_apply_gateCall t fEnable_p s
    · rw [if_neg hp]

end Hostif

/-! ## Repeated requests and rejected calls (claims C6, C7, C8) -/

namespace Hostif

open tHostifReturn

/-- C6 fails as stated: on the controller that rejects a repeated request,
from the initial state, the first `hostif_sysIrqEnable(TRUE)` returns
`kHostifSuccessful` and the second returns `kHostifNoResource`. -/
theorem C6_repeated_enable_rejected :
    (hostif_sysIrqEnable (refController rejectRepeated) exampleTarget true IcState.init).1 =
        kHostifSuccessful ∧
      (hostif_sysIrqEnable (refController rejectRepeated) exampleTarget true
          (hostif_sysIrqEnable (refController rejectRepeated) exampleTarget true
            IcState.init).2).1 = kHostifNoResource ∧
      (hostif_sysIrqEnable (refController rejectRepeated) exampleTarget true
          (hostif_sysIrqEnable (refController rejectRepeated) exampleTarget true
            IcState.init).2).1 ≠ kHostifSuccessful := by
  simp [irqEnable_ref, rejectRepeated, gateCall, exampleTarget, IcState.apply, IcState.init]

/-- C6 (amended): for each flag `b` and every starting controller state, on a
controller that answers status `0` to both requests, `hostif_sysIrqEnable(b)`
called twice in a row returns `kHostifSuccessful` both times and leaves
GateState equal to `b`; the state after the second call equals the state after
the first. -/
theorem C6_setEnabled_twice (policy : IcCall → IcState → Int) (t : HostifTarget)
    (b : Bool) (s : IcState)
    (h1 : policy (gateCall t b) s = 0)
    (h2 : policy (gateCall t b) (s.apply (gateCall t b)) = 0) :
    (hostif_sysIrqEnable (refController policy) t b s).1 = kHostifSuccessful ∧
      (hostif_sysIrqEnable (refController policy) t b
          (hostif_sysIrqEnable (refController policy) t b s).2).1 = kHostifSuccessful ∧
      GateState t
          (hostif_sysIrqEnable (refController policy) t b
            (hostif_sysIrqEnable (refController policy) t b s).2).2 = b ∧
      (hostif_sysIrqEnable (refController policy) t b
          (hostif_sysIrqEnable (refController policy) t b s).2).2 =
        (hostif_sysIrqEnable (refController policy) t b s).2 := by
  have e1 : hostif_sysIrqEnable (refController policy) t b s =
      (kHostifSuccessful, s.apply (gateCall t b)) := by
    rw [irqEnable_ref, if_pos h1]
  have e2 : hostif_sysIrqEnable (refController policy) t b (s.apply (gateCall t b)) =
      (kHostifSuccessful, s.apply (gateCall t b)) := by
    rw [irqEnable_ref, if_pos h2, apply_gateCall_twice]
  simp only [e1, e2, GateState_apply_gateCall, and_self]

/-- The instance of C6 (amended) for a disable request on an accepting
controller, starting from a state in which the line is unmasked. -/
theorem C6_setEnabled_twice_witness :
    (hostif_sysIrqEnable (refController acceptAll) exampleTarget false exampleEnabled).1 =
        kHostifSuccessful ∧
      (hostif_sysIrqEnable (refController acceptAll) exampleTarget false
          (hostif_sysIrqEnable (refController acceptAll) exampleTarget false
            exampleEnabled).2).1 = kHostifSuccessful ∧
      GateState exampleTarget
          (hostif_sysIrqEnable (refController acceptAll) exampleTarget false
            (hostif_sysIrqEnable (refController acceptAll) exampleTarget false
              exampleEnabled).2).2 = false ∧
      (hostif_sysIrqEnable (refController acceptAll) exampleTarget false
          (hostif_sysIrqEnable (refController acceptAll) exampleTarget false
            exampleEnabled).2).2 =
        (hostif_sysIrqEnable (refController acceptAll) exampleTarget false exampleEnabled).2 :=
  C6_setEnabled_twice acceptAll exampleTarget false exampleEnabled rfl rfl

/-- C7 fails as stated: in the initial state GateState is already Disabled,
yet `hostif_sysIrqEnable(FALSE)` still issues `alt_ic_irq_disable`, and on the
controller that rejects a repeated request it returns `kHostifNoResource`. -/
theorem C7_gate_issues_call_when_state_matches :
    GateState exampleTarget IcState.init = false ∧
      (hostif_sysIrqEnable (traced (refController rejectRepeated)) exampleTarget false
          (IcState.init, [])).2.2 = [IcCall.irq_disable 0 2] ∧
      (hostif_sysIrqEnable (refController rejectRepeated) exampleTarget false
          IcState.init).1 = kHostifNoResource := by
  refine ⟨rfl, ?_, ?_⟩
  · rw [irqEnable_traced]; rfl
  · simp [irqEnable_ref, rejectRepeated, gateCall, exampleTarget, IcState.init]

/-- C7 (amended): `hostif_sysIrqEnable` does not look at GateState.  Also when
GateState already equals the requested flag it issues the one controller call
the flag selects, and it returns `kHostifSuccessful` exactly when the
controller answers that repeated request with status `0`, `kHostifNoResource`
exactly when the controller rejects it. -/
theorem C7_gate_forwards_repeated_request (policy : IcCall → IcState → Int)
    (t : HostifTarget) (fEnable_p : Bool) (s : IcState) (log : List IcCall)
    (hsame : GateState t s = fEnable_p) :
    (hostif_sysIrqEnable (traced (refController policy)) t fEnable_p (s, log)).2.2 =
        log ++ [gateCall t fEnable_p] ∧
      ((hostif_sysIrqEnable (refController policy) t fEnable_p s).1 = kHostifSuccessful ↔
        policy (gateCall t fEnable_p) s = 0) ∧
      ((hostif_sysIrqEnable (refController policy) t fEnable_p s).1 = kHostifNoResource ↔
        policy (gateCall t fEnable_p) s ≠ 0) ∧
      GateState t (hostif_sysIrqEnable (refController policy) t fEnable_p s).2 = fEnable_p := by
  refine ⟨?_, ?_, ?_, ?_⟩
  · rw [irqEnable_traced]
  · rw [irqEnable_ref]
    by_cases hp : policy (gateCall t fEnable_p) s = 0 <;> simp [hp]
  · rw [irqEnable_ref]
    by_cases hp : policy (gateCall t fEnable_p) s = 0 <;> simp [hp]
  · rw [irqEnable_ref]
    by_cases hp : policy (gateCall t fEnable_p) s = 0
    · rw [if_pos hp]; exact GateState_apply_gateCall t fEnable_p s
    · rw [if_neg hp]; exact hsame

/-- The instance of C7 (amended) for an enable request in a state in which the
line is already unmasked, on the controller that rejects a repeated request. -/
theorem C7_gate_forwards_repeated_request_witness :
    (hostif_sysIrqEnable (traced (refController rejectRepeated)) exampleTarget true
        (exampleEnabled, [])).2.2 = [] ++ [gateCall exampleTarget true] ∧
      ((hostif_sysIrqEnable (refController rejectRepeated) exampleTarget true
          exampleEnabled).1 = kHostifSuccessful ↔
        rejectRepeated (gateCall exampleTarget true) exampleEnabled = 0) ∧
      ((hostif_sysIrqEnable (refController rejectRepeated) exampleTarget true
          exampleEnabled).1 = kHostifNoResource ↔
        rejectRepeated (gateCall exampleTarget true) exampleEnabled ≠ 0) ∧
      GateState exampleTarget
        (hostif_sysIrqEnable (refController rejectRepeated) exampleTarget true
          exampleEnabled).2 = true :=
  C7_gate_forwards_repeated_request rejectRepeated exampleTarget true exampleEnabled []
    (by simp [GateState, exampleTarget, exampleEnabled, IcState.apply])

/-- C8 fails as stated: from the initial state, callback `4096` is registered
with context `1`; a second registration of the same callback with context `8`
is rejected and returns `kHostifNoResource`; after `hostif_sysIrqEnable(TRUE)`
a firing invokes callback `4096`, the callback whose registration failed,
through the binding installed before. -/
theorem C8_failed_registration_callback_still_invoked :
    (run rejectRebind exampleTarget
        [Step.register 4096 1, Step.register 4096 8, Step.setEnabled true, Step.fire]
        IcState.init).1 =
      [Event.registered 4096 1 kHostifSuccessful,
        Event.registered 4096 8 kHostifNoResource,
        Event.gated true kHostifSuccessful,
        Event.fired [(4096, 1)]] := by
  simp [run, step, fire, regHandler_ref, irqEnable_ref, rejectRebind, regCall, gateCall,
    exampleTarget, IcState.apply, IcState.init, GateState, CallbackBinding, NULL]

/-- C8 (amended): on the controller with handler table and mask bits, whatever
its acceptance policy, a rejected call is atomic.  When the registration
primitive answers a nonzero status `hostif_sysIrqRegHandler` returns
`kHostifNoResource` and the controller state is the state before the call;
when the selected gate primitive answers a nonzero status
`hostif_sysIrqEnable` returns `kHostifNoResource` and the state is the state
before the call (so GateState and CallbackBinding are unchanged).  After a
rejected registration, a firing that follows a later
`hostif_sysIrqEnable(TRUE)` invokes what it would have invoked without the
rejected call, which is at most the binding installed before it; the callback
whose registration failed is not invoked unless it was already bound before
the call. -/
theorem C8_failed_operation_atomic (policy : IcCall → IcState → Int) (t : HostifTarget)
    (pfnIrqCb_p pArg_p : Ptr) (fEnable_p : Bool) (s : IcState) :
    (policy (regCall t pfnIrqCb_p pArg_p) s ≠ 0 →
        hostif_sysIrqRegHandler (refController policy) t pfnIrqCb_p pArg_p s =
            (kHostifNoResource, s) ∧
          GateState t (hostif_sysIrqRegHandler (refController policy) t pfnIrqCb_p pArg_p s).2 =
            GateState t s ∧
          CallbackBinding t
              (hostif_sysIrqRegHandler (refController policy) t pfnIrqCb_p pArg_p s).2 =
            CallbackBinding t s) ∧
      (policy (gateCall t fEnable_p) s ≠ 0 →
        hostif_sysIrqEnable (refController policy) t fEnable_p s = (kHostifNoResource, s) ∧
          GateState t (hostif_sysIrqEnable (refController policy) t fEnable_p s).2 =
            GateState t s ∧
          CallbackBinding t (hostif_sysIrqEnable (refController policy) t fEnable_p s).2 =
            CallbackBinding t s) ∧
      (policy (regCall t pfnIrqCb_p pArg_p) s ≠ 0 →
        fire t (hostif_sysIrqEnable (refController policy) t true
              (hostif_sysIrqRegHandler (refController policy) t pfnIrqCb_p pArg_p s).2).2 =
            fire t (hostif_sysIrqEnable (refController policy) t true s).2 ∧
          (∀ b ∈ fire t (hostif_sysIrqEnable (refController policy) t true
              (hostif_sysIrqRegHandler (refController policy) t pfnIrqCb_p pArg_p s).2).2,
            CallbackBinding t s = some b) ∧
          ((∀ c : Ptr, CallbackBinding t s ≠ some (pfnIrqCb_p, c)) →
            ∀ b ∈ fire t (hostif_sysIrqEnable (refController policy) t true
              (hostif_sysIrqRegHandler (refController policy) t pfnIrqCb_p pArg_p s).2).2,
              b.1 ≠ pfnIrqCb_p)) := by
  have hreg : policy (regCall t pfnIrqCb_p pArg_p) s ≠ 0 →
      hostif_sysIrqRegHandler (refController policy) t pfnIrqCb_p pArg_p s =
        (kHostifNoResource, s) := by
    intro h
    rw [regHandler_ref, if_neg h]
  have hfire : policy (regCall t pfnIrqCb_p pArg_p) s ≠ 0 →
      ∀ b ∈ fire t (hostif_sysIrqEnable (refController policy) t true
          (hostif_sysIrqRegHandler (refController policy) t pfnIrqCb_p pArg_p s).2).2,
        CallbackBinding t s = some b := by
    intro h b hb
    rw [hreg h] at hb
    have hbind := fire_subset_binding t _ b hb
    rw [irqEnable_ref] at hbind
    by_cases hp : policy (gateCall t true) s = 0
    · rw [if_pos hp] at hbind
      rwa [CallbackBinding_apply_gateCall] at hbind
    · rw [if_neg hp] at hbind
      exact hbind
  refine ⟨?_, ?_, ?_⟩
  · intro h
    rw [hreg h]
    exact ⟨rfl, rfl, rfl⟩
  · intro h
    rw [irqEnable_ref, if_neg h]
    exact ⟨rfl, rfl, rfl⟩
  · intro h
    refine ⟨?_, hfire h, ?_⟩
    · rw [hreg h]
    · intro hne b hin hb
      apply hne b.2
      rw [hfire h b hin, ← hb]

/-- The instance of C8 (amended).  On the controller whose table entry cannot
be overwritten, with callback `7` bound with context `1`: registration of
callback `4096` with context `8` returns `kHostifNoResource` and leaves the
state as it was, and a firing after `hostif_sysIrqEnable(TRUE)` invokes
callback `7` with context `1` and not callback `4096`.  On the controller that
rejects every call made while the line is unmasked, a disable request in that
state returns `kHostifNoResource` and leaves the state as it was. -/
theorem C8_failed_operation_atomic_witness :
    hostif_sysIrqRegHandler (refController rejectRebind) exampleTarget 4096 8
        exampleBound = (kHostifNoResource, exampleBound) ∧
      hostif_sysIrqEnable (refController rejectWhileEnabled) exampleTarget false
        exampleEnabled = (kHostifNoResource, exampleEnabled) ∧
      fire exampleTarget (hostif_sysIrqEnable (refController rejectRebind) exampleTarget
          true (hostif_sysIrqRegHandler (refController rejectRebind) exampleTarget 4096 8
            exampleBound).2).2 = [(7, 1)] ∧
      (∀ b ∈ fire exampleTarget (hostif_sysIrqEnable (refController rejectRebind) exampleTarget
          true (hostif_sysIrqRegHandler (refController rejectRebind) exampleTarget 4096 8
            exampleBound).2).2, b.1 ≠ 4096) :=
  have hu : exampleEnabled.unmasked (0, 2) = true := by
    simp [exampleEnabled, IcState.apply]
  have hbound : CallbackBinding exampleTarget exampleBound = some (7, 1) := by
    simp [CallbackBinding, exampleTarget, exampleBound, IcState.apply, NULL]
  have hr : rejectRebind (regCall exampleTarget 4096 8) exampleBound ≠ 0 := by
    have hh : exampleBound.handler (0, 2) = some (7, 1) := hbound
    simp [rejectRebind, regCall, exampleTarget, hh]
  have hg : rejectWhileEnabled (gateCall exampleTarget false) exampleEnabled ≠ 0 := by
    simp [rejectWhileEnabled, hu]
  have hnb : ∀ c : Ptr, CallbackBinding exampleTarget exampleBound ≠ some (4096, c) := by
    intro c
    rw [hbound]
    simp
  have hf : fire exampleTarget
      (hostif_sysIrqEnable (refController rejectRebind) exampleTarget true exampleBound).2 =
      [(7, 1)] := by
    have ha : rejectRebind (gateCall exampleTarget true) exampleBound = 0 := rfl
    rw [irqEnable_ref, if_pos ha]
    apply fire_of_bound
    · exact GateState_apply_gateCall exampleTarget true exampleBound
    · rw [CallbackBinding_apply_gateCall]; exact hbound
  ⟨((C8_failed_operation_atomic rejectRebind exampleTarget 4096 8 false
      exampleBound).1 hr).1,
    ((C8_failed_operation_atomic rejectWhileEnabled exampleTarget 4096 8 false
      exampleEnabled).2.1 hg).1,
    (((C8_failed_operation_atomic rejectRebind exampleTarget 4096 8 false
      exampleBound).2.2 hr).1).trans hf,
    ((C8_failed_operation_atomic rejectRebind exampleTarget 4096 8 false
      exampleBound).2.2 hr).2.2 hnb⟩

end Hostif
